import Mathlib

/-!
Shallow embedding of the Midjourney Discord bridge (src/app.py).

The pieces modelled here are the ones the claims are about:
the keyword-overlap matcher and attachment extraction of
`MidjourneyBridge.wait_for_response` (app.py lines 254-318), the task store
(`pending_tasks` / `completed_tasks`, lines 47-49), task creation in
`MidjourneyBridge.send_imagine_command` (lines 106-143), and the read-only
status route `check_status` (lines 439-470).

Python strings are modelled as `String`; the character-level operations
(`str.lower`, `str.split()`, the substring test `a in b`) are given as
structurally recursive functions over `List Char` so that every definition
evaluates by kernel reduction.  Times (`datetime.now()`) are `Nat` instants
passed in explicitly; each iteration of the watcher's polling loop is one
"tick" carrying the instant and the channel-history snapshot it sees.
-/

namespace Bridge

/-- Lower-case a character list; models Python `str.lower()` applied to the
characters of a string (ASCII case mapping, which is all the code relies on). -/
def lowerChars (l : List Char) : List Char := l.map Char.toLower

/-- Helper for `wsTokens`: walks the characters, accumulating the current
token in reverse; whitespace ends the current token, and empty tokens are
dropped, exactly as Python `str.split()` with no separator behaves. -/
def wsTokensAux : List Char → List Char → List (List Char)
  | [], acc => if acc.isEmpty then [] else [acc.reverse]
  | c :: cs, acc =>
    if c.isWhitespace then
      if acc.isEmpty then wsTokensAux cs [] else acc.reverse :: wsTokensAux cs []
    else wsTokensAux cs (c :: acc)

/-- Whitespace tokenizer: models Python `str.split()` with no argument
(splits on runs of whitespace, discarding empty tokens). -/
def wsTokens (l : List Char) : List (List Char) := wsTokensAux l []

/-- Python substring containment `needle in hay` on lower-level character
lists (contiguous occurrence; the empty needle occurs in everything). -/
def pyIn (needle : List Char) : List Char → Bool
  | [] => needle.isEmpty
  | c :: cs => needle.isPrefixOf (c :: cs) || pyIn needle cs

/-- The fixed author identifier of the upstream generator bot
(app.py line 31, `MIDJOURNEY_USER_ID`). -/
def MIDJOURNEY_USER_ID : Nat := 936929561302675456

/-- An inbound Discord attachment: its filename and its URL. -/
structure Attachment where
  filename : String
  url : String
deriving DecidableEq

/-- An inbound Discord message as the watcher sees it: author id, text
content, attachments and the message id. -/
structure Message where
  author_id : Nat
  content : String
  attachments : List Attachment
  id : Nat
deriving DecidableEq

/-- The prompt keyword selection of app.py line 261:
`prompt_words = task_info['prompt'].lower().split()[:5]`. -/
def promptWords (prompt : String) : List (List Char) :=
  (wsTokens (lowerChars prompt.toList)).take 5

/-- The overlap count of app.py line 282:
`matches = sum(1 for word in prompt_words if word in message_content)`;
note `word in message_content` is Python substring containment on the
lower-cased message text, and `prompt_words` is a list (duplicates kept). -/
def matchesCount (prompt_words : List (List Char)) (message_content : List Char) : Nat :=
  prompt_words.countP (fun word => pyIn word message_content)

/-- The fixed allow-list of app.py line 289, as character lists. -/
def imageExts : List (List Char) :=
  [".png".toList, ".jpg".toList, ".jpeg".toList, ".webp".toList]

/-- The attachment filter of app.py line 289:
`any(ext in attachment.filename.lower() for ext in ['.png', '.jpg', '.jpeg', '.webp'])`
(substring containment against the lower-cased filename). -/
def attachmentHit (filename : String) : Bool :=
  imageExts.any (fun ext => pyIn ext (lowerChars filename.toList))

/-- URL extraction of app.py lines 287-290: keep the URL of each attachment
whose filename passes `attachmentHit`, in order. -/
def extractUrls (attachments : List Attachment) : List String :=
  attachments.filterMap (fun a => if attachmentHit a.filename then some a.url else none)

/-- One message's treatment inside the scan loop of app.py lines 274-306.
`none` models `continue` (wrong author, no attachments, overlap below 2, or
no allow-listed attachment URL); `some urls` models the completion branch. -/
def scanMessage (prompt_words : List (List Char)) (message : Message) :
    Option (List String) :=
  if message.author_id ≠ MIDJOURNEY_USER_ID then none
  else if message.attachments.isEmpty then none
  else
    let message_content := lowerChars message.content.toList
    let numMatches := matchesCount prompt_words message_content
    if 2 ≤ numMatches then
      let image_urls := extractUrls message.attachments
      if image_urls.isEmpty then none else some image_urls
    else none

/-- Scan one history snapshot in order (the `for message in messages` loop,
app.py lines 274-306); the first message that completes wins, and its
message id is recorded alongside the extracted URLs. -/
def scanMessages (prompt_words : List (List Char)) : List Message → Option (Nat × List String)
  | [] => none
  | m :: ms =>
    match scanMessage prompt_words m with
    | some urls => some (m.id, urls)
    | none => scanMessages prompt_words ms

/-- A record of the `pending_tasks` dictionary, with the exact fields created
at app.py lines 116-123 (`created_at` as a `Nat` instant, message ids as
`Option Nat`). -/
structure PendingTask where
  prompt : String
  status : String
  created_at : Nat
  command_message_id : Option Nat
  response_message_id : Option Nat
  image_urls : List String
deriving DecidableEq

/-- A record of the `completed_tasks` dictionary, with the exact fields
written at app.py lines 293-299. -/
structure CompletedTask where
  status : String
  prompt : String
  image_urls : List String
  discord_message_id : Nat
  completed_at : Nat
deriving DecidableEq

/-- The process-wide task store: the two dictionaries `pending_tasks` and
`completed_tasks` of app.py lines 47-49, as partial maps keyed by task id. -/
structure Store where
  pending : String → Option PendingTask
  completed : String → Option CompletedTask

/-- Point update of a partial map (Python `d[k] = v`). -/
def update {α : Type} (f : String → Option α) (k : String) (v : Option α) :
    String → Option α :=
  fun k2 => if k2 = k then v else f k2

/-- The store at process start: both dictionaries empty. -/
def emptyStore : Store := { pending := fun _ => none, completed := fun _ => none }

/-- In-place status write `pending_tasks[task_id]['status'] = st`, guarded by
`if task_id in pending_tasks` as at app.py lines 141-142 and 315-316 (the
unguarded writes at lines 135 and 301 always run with the key present). -/
def setPendingStatus (task_id st : String) (s : Store) : Store :=
  match s.pending task_id with
  | none => s
  | some t => { s with pending := update s.pending task_id (some { t with status := st }) }

/-- `MidjourneyBridge.send_imagine_command` (app.py lines 106-143) restricted
to its task-store effect: it unconditionally writes a fresh record with
status `submitted` (lines 116-123), then attempts the outbound send; `ok`
abstracts whether some send strategy succeeded without raising.  On success
the status becomes `waiting_for_response` and the call returns `true`
(lines 135-137); on failure the status becomes `error` and it returns
`false` (lines 139-143). -/
def send_imagine_command (ok : Bool) (prompt task_id : String) (now : Nat) (s : Store) :
    Store × Bool :=
  let rec0 : PendingTask :=
    { prompt := prompt, status := "submitted", created_at := now,
      command_message_id := none, response_message_id := none, image_urls := [] }
  let s1 : Store := { s with pending := update s.pending task_id (some rec0) }
  if ok then (setPendingStatus task_id "waiting_for_response" s1, true)
  else (setPendingStatus task_id "error" s1, false)

/-- One iteration of the watcher's polling loop (app.py lines 268-308) for a
given task: scan this tick's history snapshot; on the first completing
message, write the completed record (lines 293-299) and update the pending
record in place (lines 301-303), returning the extracted URLs.  With no
completing message the store is untouched and the loop will continue. -/
def watcherStep (task_id : String) (prompt_words : List (List Char)) (now : Nat)
    (messages : List Message) (s : Store) : Store × Option (List String) :=
  match s.pending task_id with
  | none => (s, none)
  | some task_info =>
    match scanMessages prompt_words messages with
    | none => (s, none)
    | some (mid, urls) =>
      let ct : CompletedTask :=
        { status := "completed", prompt := task_info.prompt, image_urls := urls,
          discord_message_id := mid, completed_at := now }
      let pt : PendingTask :=
        { task_info with
          status := "completed"
          response_message_id := some mid
          image_urls := urls }
      ({ completed := update s.completed task_id (some ct),
         pending := update s.pending task_id (some pt) }, some urls)

/-- The timeout finalizer of app.py lines 314-316: if the task id is still in
`pending_tasks`, set its status to `timeout`. -/
def watcherTimeout (task_id : String) (s : Store) : Store :=
  setPendingStatus task_id "timeout" s

/-- The `while datetime.now() < timeout` loop of app.py lines 268-313, driven
by the finite list of remaining polling ticks (each tick: the instant and
the history snapshot it fetches).  A completing tick returns immediately
with the URLs; exhausting the ticks models the wait budget elapsing, after
which the timeout finalizer runs and `None` is returned. -/
def watcherLoop (task_id : String) (prompt_words : List (List Char)) :
    List (Nat × List Message) → Store → Store × Option (List String)
  | [], s => (watcherTimeout task_id s, none)
  | (now, msgs) :: rest, s =>
    match watcherStep task_id prompt_words now msgs s with
    | (s2, some urls) => (s2, some urls)
    | (s2, none) => watcherLoop task_id prompt_words rest s2

/-- `MidjourneyBridge.wait_for_response` (app.py lines 254-318): bail out
with `None` if the task id is unknown (lines 257-258); otherwise compute
`prompt_words` from the captured task record (line 261) and run the polling
loop over the given ticks. -/
def wait_for_response (task_id : String) (ticks : List (Nat × List Message)) (s : Store) :
    Store × Option (List String) :=
  match s.pending task_id with
  | none => (s, none)
  | some task_info => watcherLoop task_id (promptWords task_info.prompt) ticks s

/-- The JSON body and HTTP code produced by the `/status/<task_id>` route;
fields absent from a branch's payload are `none`. -/
structure StatusResponse where
  http_code : Nat
  status : String
  task_id : String
  image_urls : Option (List String)
  discord_message_id : Option Nat
  completed_at : Option Nat
  created_at : Option Nat
  message : Option String
deriving DecidableEq

/-- The `check_status` route (app.py lines 439-466): the completed partition
is consulted first (lines 443-451), then the pending partition
(lines 453-460), else a 404 `not_found` payload (lines 462-466). -/
def check_status (s : Store) (task_id : String) : StatusResponse :=
  match s.completed task_id with
  | some task_info =>
    { http_code := 200, status := "completed", task_id := task_id,
      image_urls := some task_info.image_urls,
      discord_message_id := some task_info.discord_message_id,
      completed_at := some task_info.completed_at,
      created_at := none, message := none }
  | none =>
    match s.pending task_id with
    | some task_info =>
      { http_code := 200, status := task_info.status, task_id := task_id,
        image_urls := none, discord_message_id := none, completed_at := none,
        created_at := some task_info.created_at,
        message := some ("Task is " ++ task_info.status) }
    | none =>
      { http_code := 404, status := "not_found", task_id := task_id,
        image_urls := none, discord_message_id := none, completed_at := none,
        created_at := none, message := some "Task not found" }

/-- The `/status` handler viewed as a state transformer, to make its absence
of store side effects a statable fact: the handler only reads. -/
def check_statusH (s : Store) (task_id : String) : StatusResponse × Store :=
  (check_status s task_id, s)

/-- Rendering of the spec's own overlap count, for comparison with
`matchesCount`: the cardinality of the set intersection between the
whitespace-tokenized lower-cased token set of the message text and the
prompt-keyword set (each shared keyword counted once). -/
def specOverlapCount (prompt_keywords : List (List Char)) (message_text : List Char) : Nat :=
  ((wsTokens (lowerChars message_text)).dedup.filter
    (fun t => prompt_keywords.contains t)).length

/-- Rendering of the spec's attachment criterion, for comparison with
`attachmentHit`: the filename's extension is one of the allow-list, i.e. the
lower-cased filename ends with one of the four extension strings. -/
def specHasAllowedExt (filename : String) : Bool :=
  imageExts.any (fun ext => ext.reverse.isPrefixOf (lowerChars filename.toList).reverse)

/-! Concrete fixtures used by the counterexamples and witnesses below. -/

/-- A one-word-prompt response message: correct author, one `.png`
attachment, content echoing the prompt `"cat"`. -/
def msgCat : Message :=
  { author_id := MIDJOURNEY_USER_ID, content := "cat",
    attachments := [{ filename := "cat.png", url := "u1" }], id := 11 }

/-- The spec's worked example prompt. -/
def foxPrompt : String := "a red fox jumps over the lazy dog"

/-- A matching response for `foxPrompt` carrying one image attachment. -/
def msgFoxA : Message :=
  { author_id := MIDJOURNEY_USER_ID, content := "Red Fox Jumps over rocks",
    attachments := [{ filename := "grid.png", url := "uA" }], id := 42 }

/-- A second, different matching response for `foxPrompt`. -/
def msgFoxB : Message :=
  { author_id := MIDJOURNEY_USER_ID, content := "red fox jumps again",
    attachments := [{ filename := "grid2.png", url := "uB" }], id := 43 }

/-- A response whose keyword overlap is high but whose only attachment is a
`.txt` file. -/
def msgTxt : Message :=
  { author_id := MIDJOURNEY_USER_ID, content := "red fox jumps over",
    attachments := [{ filename := "notes.txt", url := "uT" }], id := 44 }

/-- A message with no overlap with `"unique zebra words here now"`. -/
def msgOther : Message :=
  { author_id := MIDJOURNEY_USER_ID, content := "something else entirely",
    attachments := [{ filename := "pic.png", url := "uO" }], id := 45 }

/-- Store after submitting `foxPrompt` as task `t1`. -/
def storeA : Store := (send_imagine_command true foxPrompt "t1" 0 emptyStore).1

/-- Store after a watcher run on `t1` completes it from `msgFoxA`. -/
def storeB : Store := (wait_for_response "t1" [(7, [msgFoxA])] storeA).1

/-- Store after a later watcher run (as spawned by a duplicate submission of
the same task id) ticks once more on the already-completed `t1` and sees
`msgFoxB`. -/
def storeC : Store := (wait_for_response "t1" [(9, [msgFoxB])] storeB).1

/-- A store with an old record for task `t8`, for re-creation scenarios. -/
def store8 : Store :=
  { pending := update emptyStore.pending "t8"
      (some { prompt := "old prompt", status := "waiting_for_response", created_at := 3,
              command_message_id := none, response_message_id := none, image_urls := [] }),
    completed := fun _ => none }

/-- A five-keyword prompt with no overlap with `msgOther`. -/
def zebraPrompt : String := "unique zebra words here now"

/-- The pending record produced by submitting `zebraPrompt` as task `t6`. -/
def t6rec : PendingTask :=
  { prompt := zebraPrompt, status := "waiting_for_response", created_at := 0,
    command_message_id := none, response_message_id := none, image_urls := [] }

/-- Store after submitting `zebraPrompt` as task `t6`. -/
def store6 : Store := (send_imagine_command true zebraPrompt "t6" 0 emptyStore).1

/-! Helper lemmas shared by the claim theorems. -/

theorem update_same {α : Type} (f : String → Option α) (k : String) (v : Option α) :
    update f k v k = v := by
  simp [update]

theorem matchesCount_le_length (pw : List (List Char)) (c : List Char) :
    matchesCount pw c ≤ pw.length :=
  List.countP_le_length _

theorem send_imagine_spec (ok : Bool) (prompt task_id : String) (now : Nat) (s : Store) :
    (send_imagine_command ok prompt task_id now s).1.pending task_id
      = some { prompt := prompt,
               status := if ok then "waiting_for_response" else "error",
               created_at := now, command_message_id := none,
               response_message_id := none, image_urls := [] } ∧
    (send_imagine_command ok prompt task_id now s).1.completed = s.completed ∧
    (send_imagine_command ok prompt task_id now s).2 = ok := by
  cases ok <;>
    simp [send_imagine_command, setPendingStatus, update]

theorem watcherStep_of_no_match (task_id : String) (pw : List (List Char)) (now : Nat)
    (msgs : List Message) (s : Store) (h : scanMessages pw msgs = none) :
    watcherStep task_id pw now msgs s = (s, none) := by
  unfold watcherStep
  cases hp : s.pending task_id <;> simp [h]

theorem watcherLoop_no_match (task_id : String) (pw : List (List Char))
    (ticks : List (Nat × List Message)) (s : Store)
    (h : ∀ pr ∈ ticks, scanMessages pw pr.2 = none) :
    watcherLoop task_id pw ticks s = (watcherTimeout task_id s, none) := by
  induction ticks with
  | nil => rfl
  | cons t rest ih =>
    obtain ⟨now, msgs⟩ := t
    have h1 : scanMessages pw msgs = none := h (now, msgs) (by simp)
    have h2 : ∀ pr ∈ rest, scanMessages pw pr.2 = none :=
      fun pr hpr => h pr (by simp [hpr])
    simp [watcherLoop, watcherStep_of_no_match task_id pw now msgs s h1, ih h2]

theorem watcherStep_complete_fields (task_id : String) (pw : List (List Char)) (now : Nat)
    (msgs : List Message) (s : Store) (urls : List String)
    (h : (watcherStep task_id pw now msgs s).2 = some urls) :
    (((watcherStep task_id pw now msgs s).1.pending task_id).map PendingTask.status)
      = some "completed" ∧
    (((watcherStep task_id pw now msgs s).1.pending task_id).map PendingTask.image_urls)
      = some urls ∧
    (((watcherStep task_id pw now msgs s).1.completed task_id).map CompletedTask.image_urls)
      = some urls := by
  cases hp : s.pending task_id with
  | none => simp [watcherStep, hp] at h
  | some t =>
    cases hs : scanMessages pw msgs with
    | none => simp [watcherStep, hp, hs] at h
    | some pr =>
      obtain ⟨mid, u⟩ := pr
      have hu : u = urls := by simpa [watcherStep, hp, hs] using h
      subst hu
      simp [watcherStep, hp, hs, update_same]

/-- C1: the claim predicts a match for the one-word prompt `"cat"` on any
attachment-bearing generator message with a valid image extension; the code
requires an overlap of at least 2, which a one-word prompt can never reach,
so the watcher declares no match on exactly such a message. -/
theorem c1_counterexample :
    msgCat.author_id = MIDJOURNEY_USER_ID ∧ msgCat.attachments ≠ [] ∧
    attachmentHit "cat.png" = true ∧ (promptWords "cat").length ≤ 2 ∧
    scanMessage (promptWords "cat") msgCat = none := by decide

/-- C1 (amended): the watcher completes on a message exactly when the message
is authored by the generator, carries attachments, the substring-overlap
count against the first five lower-cased prompt tokens is at least 2, and at
least one attachment URL passes the allow-list filter; there is no
degenerate short-prompt branch, so any prompt with at most one token never
matches any message. -/
theorem c1_match_characterisation (prompt : String) (msg : Message) :
    ((scanMessage (promptWords prompt) msg).isSome = true ↔
      (msg.author_id = MIDJOURNEY_USER_ID ∧ msg.attachments ≠ [] ∧
       2 ≤ matchesCount (promptWords prompt) (lowerChars msg.content.toList) ∧
       extractUrls msg.attachments ≠ [])) ∧
    ((promptWords prompt).length ≤ 1 → scanMessage (promptWords prompt) msg = none) := by
  constructor
  · by_cases h1 : msg.author_id = MIDJOURNEY_USER_ID
    · by_cases h2 : msg.attachments = []
      · simp [scanMessage, h1, h2]
      · by_cases h3 : 2 ≤ matchesCount (promptWords prompt) (lowerChars msg.content.data)
        · by_cases h4 : extractUrls msg.attachments = []
          · simp [scanMessage, h1, h2, h3, h4]
          · simp [scanMessage, h1, h2, h3, h4]
        · simp [scanMessage, h1, h2, h3]
    · simp [scanMessage, h1]
  · intro hlen
    have hc : matchesCount (promptWords prompt) (lowerChars msg.content.data) ≤ 1 :=
      le_trans (matchesCount_le_length _ _) hlen
    have h3 : ¬ 2 ≤ matchesCount (promptWords prompt) (lowerChars msg.content.data) := by
      omega
    by_cases h1 : msg.author_id = MIDJOURNEY_USER_ID
    · by_cases h2 : msg.attachments = []
      · simp [scanMessage, h1, h2]
      · simp [scanMessage, h1, h2, h3]
    · simp [scanMessage, h1]

/-- C1 witness: the one-word prompt `"cat"` concretely never matches. -/
theorem c1_witness :
    (promptWords "cat").length ≤ 1 ∧ scanMessage (promptWords "cat") msgCat = none :=
  ⟨by decide, (c1_match_characterisation "cat" msgCat).2 (by decide)⟩

/-- C2: the code's overlap count is a substring-containment count, not the
cardinality of a token-set intersection: for prompt `"cat dog"` and message
text `"catalog dogma"` the code counts 2 (both prompt words occur as
substrings) while the token-set intersection is empty. -/
theorem c2_counterexample :
    matchesCount (promptWords "cat dog") (lowerChars "catalog dogma".toList) = 2 ∧
    specOverlapCount (promptWords "cat dog") "catalog dogma".toList = 0 := by decide

/-- C2 (amended): the overlap count equals the number of entries, counted
with multiplicity, of the first-five lower-cased whitespace tokens of the
prompt that occur as substrings of the lower-cased message text (message-side
repetition counts once per prompt entry), and it never exceeds 5. -/
theorem c2_overlap_count (prompt : String) (content : List Char) :
    matchesCount (promptWords prompt) content
      = ((promptWords prompt).filter (fun w => pyIn w content)).length ∧
    matchesCount (promptWords prompt) content ≤ 5 := by
  constructor
  · exact List.countP_eq_length_filter _ _
  · refine le_trans (matchesCount_le_length _ _) ?_
    simp [promptWords]

/-- C3: the attachment filter tests substring containment, not the file
extension: an attachment named `diagram.png.txt` (extension `.txt`, not in
the allow-list) is nevertheless extracted. -/
theorem c3_counterexample :
    extractUrls [{ filename := "diagram.png.txt", url := "uX" }] = ["uX"] ∧
    specHasAllowedExt "diagram.png.txt" = false := by decide

/-- C3 (amended): extraction keeps exactly the attachments whose lower-cased
filename contains one of `.png`/`.jpg`/`.jpeg`/`.webp` as a substring (the
extension itself is not checked), and a message whose extracted URL list is
empty never completes a task: the scan treats it as a non-match and
continues. -/
theorem c3_extraction_spec :
    (∀ attachments : List Attachment,
      extractUrls attachments
        = (attachments.filter (fun a => attachmentHit a.filename)).map Attachment.url) ∧
    (∀ (pw : List (List Char)) (msg : Message),
      extractUrls msg.attachments = [] → scanMessage pw msg = none) := by
  constructor
  · intro attachments
    induction attachments with
    | nil => rfl
    | cons a rest ih =>
      by_cases h : attachmentHit a.filename <;>
        simp [extractUrls, List.filterMap_cons, h] at ih ⊢ <;> exact ih
  · intro pw msg h
    by_cases h1 : msg.author_id = MIDJOURNEY_USER_ID
    · by_cases h2 : msg.attachments = []
      · simp [scanMessage, h1, h2]
      · by_cases h3 : 2 ≤ matchesCount pw (lowerChars msg.content.data)
        · simp [scanMessage, h1, h2, h3, h]
        · simp [scanMessage, h1, h2, h3]
    · simp [scanMessage, h1]

/-- C3 witness: a high-overlap message whose only attachment is `notes.txt`
yields an empty extraction and is not a match. -/
theorem c3_witness :
    extractUrls msgTxt.attachments = [] ∧
    scanMessage (promptWords foxPrompt) msgTxt = none :=
  ⟨by decide, c3_extraction_spec.2 (promptWords foxPrompt) msgTxt (by decide)⟩

/-- C4: a reachable store (submit, then a completing watcher run) in which
task `t1` is recorded in BOTH partitions: completion writes the completed
record but leaves the pending entry in place, refuting the at-most-one-
partition invariant. -/
theorem c4_counterexample :
    (storeB.pending "t1").isSome = true ∧ (storeB.completed "t1").isSome = true ∧
    ((storeB.pending "t1").map PendingTask.status) = some "completed" := by decide

/-- C4 (amended): promoting a task to completed inserts a record into the
completed partition and updates the pending record in place, so afterwards
the id is present in both partitions; the pending entry is never removed. -/
theorem c4_completion_in_both (task_id : String) (pw : List (List Char)) (now : Nat)
    (msgs : List Message) (s : Store) (urls : List String)
    (h : (watcherStep task_id pw now msgs s).2 = some urls) :
    ((watcherStep task_id pw now msgs s).1.pending task_id).isSome = true ∧
    ((watcherStep task_id pw now msgs s).1.completed task_id).isSome = true := by
  obtain ⟨h1, h2, h3⟩ := watcherStep_complete_fields task_id pw now msgs s urls h
  constructor
  · cases hx : (watcherStep task_id pw now msgs s).1.pending task_id with
    | none => rw [hx] at h1; simp at h1
    | some t => rfl
  · cases hx : (watcherStep task_id pw now msgs s).1.completed task_id with
    | none => rw [hx] at h3; simp at h3
    | some t => rfl

/-- C4 witness: the completing step on the concrete fox-prompt store. -/
theorem c4_witness :
    ((watcherStep "t1" (promptWords foxPrompt) 7 [msgFoxA] storeA).1.pending "t1").isSome = true ∧
    ((watcherStep "t1" (promptWords foxPrompt) 7 [msgFoxA] storeA).1.completed "t1").isSome = true :=
  c4_completion_in_both "t1" (promptWords foxPrompt) 7 [msgFoxA] storeA ["uA"] (by decide)

/-- C5: terminal states are not sinks: task `t1` is completed in `storeB`
with `image_urls = ["uA"]`, yet a later watcher tick (as spawned by a second
submission of the same id) re-matches `msgFoxB` and overwrites both the
completed record and the pending record with `["uB"]`. -/
theorem c5_counterexample :
    ((storeB.pending "t1").map PendingTask.status) = some "completed" ∧
    ((storeB.completed "t1").map CompletedTask.image_urls) = some ["uA"] ∧
    ((storeC.completed "t1").map CompletedTask.image_urls) = some ["uB"] ∧
    ((storeC.pending "t1").map PendingTask.image_urls) = some ["uB"] := by decide

/-- C5 (amended): the watcher has no terminal-status guard, so a later tick
on an already-completed task can overwrite its records; what does hold is
that a single watcher run stops at its first completing tick — once that
tick completes the task (status `completed`), the run returns immediately
and performs no further changes itself. -/
theorem c5_run_stops_at_first_match (task_id : String) (pw : List (List Char)) (now : Nat)
    (msgs : List Message) (rest : List (Nat × List Message)) (s : Store) (urls : List String)
    (h : (watcherStep task_id pw now msgs s).2 = some urls) :
    watcherLoop task_id pw ((now, msgs) :: rest) s = watcherStep task_id pw now msgs s ∧
    (((watcherStep task_id pw now msgs s).1.pending task_id).map PendingTask.status)
      = some "completed" := by
  refine ⟨?_, (watcherStep_complete_fields task_id pw now msgs s urls h).1⟩
  cases hw : watcherStep task_id pw now msgs s with
  | mk s2 r =>
    rw [hw] at h
    simp at h
    subst h
    simp [watcherLoop, hw]

/-- C5 witness: the second watcher run on `storeB`, given one completing
tick, equals that single step and leaves the status `completed`. -/
theorem c5_witness :
    watcherLoop "t1" (promptWords foxPrompt) [(9, [msgFoxB])] storeB
      = watcherStep "t1" (promptWords foxPrompt) 9 [msgFoxB] storeB ∧
    (((watcherStep "t1" (promptWords foxPrompt) 9 [msgFoxB] storeB).1.pending "t1").map
      PendingTask.status) = some "completed" :=
  c5_run_stops_at_first_match "t1" (promptWords foxPrompt) 9 [msgFoxB] [] storeB ["uB"] (by decide)

/-- C6: when no tick of the watcher run carries a matching message, the run
returns `None`, sets the task's status to `timeout` in a single final write
(the rest of the record, in particular its empty `image_urls`, is
untouched), and never writes the completed partition — so the completed and
timeout transitions of one run are mutually exclusive. -/
theorem c6_timeout_when_no_match (task_id : String) (t : PendingTask)
    (ticks : List (Nat × List Message)) (s : Store)
    (hp : s.pending task_id = some t)
    (hempty : t.image_urls = [])
    (hnm : ∀ pr ∈ ticks,
      scanMessages (promptWords t.prompt) pr.2 = (none : Option (Nat × List String))) :
    (wait_for_response task_id ticks s).2 = none ∧
    (wait_for_response task_id ticks s).1.pending task_id
      = some { t with status := "timeout" } ∧
    ((wait_for_response task_id ticks s).1.pending task_id).map PendingTask.image_urls
      = some [] ∧
    (wait_for_response task_id ticks s).1.completed = s.completed := by
  have hres : wait_for_response task_id ticks s = (watcherTimeout task_id s, none) := by
    unfold wait_for_response
    rw [hp]
    exact watcherLoop_no_match task_id (promptWords t.prompt) ticks s hnm
  have htm : watcherTimeout task_id s
      = { s with pending := update s.pending task_id (some { t with status := "timeout" }) } := by
    unfold watcherTimeout setPendingStatus
    rw [hp]
  rw [hres, htm]
  refine ⟨rfl, by simp [update_same], ?_, rfl⟩
  simp [update_same, hempty]

/-- C6 witness: a watcher run on the zebra-prompt task over one tick whose
snapshot has no matching message times the task out. -/
theorem c6_witness :
    (wait_for_response "t6" [(1, [msgOther])] store6).2 = none ∧
    (wait_for_response "t6" [(1, [msgOther])] store6).1.pending "t6"
      = some { t6rec with status := "timeout" } ∧
    ((wait_for_response "t6" [(1, [msgOther])] store6).1.pending "t6").map
      PendingTask.image_urls = some [] ∧
    (wait_for_response "t6" [(1, [msgOther])] store6).1.completed = store6.completed :=
  c6_timeout_when_no_match "t6" t6rec [(1, [msgOther])] store6 (by decide) (by decide)
    (by decide)

/-- C7: a generate request whose outbound send fails (both send strategies
raise) leaves the task in status `error`, so an immediate status read
returns `error` — not `submitted` and not `waiting_for_response` as the
claim requires. -/
theorem c7_counterexample :
    (check_status ((send_imagine_command false "a beautiful sunset" "t7" 0 emptyStore).1)
      "t7").status = "error" ∧
    "error" ≠ "submitted" ∧ "error" ≠ "waiting_for_response" := by decide

/-- C7 (amended): for a task id not already in the completed partition, a
status read immediately after the generate request's background submission
returns `waiting_for_response` when the outbound send succeeded and `error`
when it failed — in neither case `completed`. -/
theorem c7_fresh_status_after_submit (ok : Bool) (prompt task_id : String) (now : Nat)
    (s : Store) (h : s.completed task_id = none) :
    (check_status ((send_imagine_command ok prompt task_id now s).1) task_id).status
      = (if ok then "waiting_for_response" else "error") ∧
    (check_status ((send_imagine_command ok prompt task_id now s).1) task_id).status
      ≠ "completed" := by
  obtain ⟨hpend, hcomp, hret⟩ := send_imagine_spec ok prompt task_id now s
  have hc : (send_imagine_command ok prompt task_id now s).1.completed task_id = none := by
    rw [hcomp]; exact h
  have h1 : (check_status ((send_imagine_command ok prompt task_id now s).1) task_id).status
      = (if ok then "waiting_for_response" else "error") := by
    simp [check_status, hc, hpend]
  refine ⟨h1, ?_⟩
  rw [h1]
  cases ok <;> simp

/-- C7 witness: a fresh successful submission reads back as
`waiting_for_response`. -/
theorem c7_witness :
    (check_status ((send_imagine_command true "a beautiful sunset" "t7w" 0 emptyStore).1)
      "t7w").status = (if true then "waiting_for_response" else "error") ∧
    (check_status ((send_imagine_command true "a beautiful sunset" "t7w" 0 emptyStore).1)
      "t7w").status ≠ "completed" :=
  c7_fresh_status_after_submit true "a beautiful sunset" "t7w" 0 emptyStore (by decide)

/-- C8: creating a task under an id that is already present does not fail:
the call reports success and the pending record is silently replaced (its
prompt changes from `old prompt` to `new prompt`), refuting the
`AlreadyExists` contract. -/
theorem c8_counterexample :
    (store8.pending "t8").isSome = true ∧
    (send_imagine_command true "new prompt" "t8" 9 store8).2 = true ∧
    ((send_imagine_command true "new prompt" "t8" 9 store8).1.pending "t8").map
      PendingTask.prompt = some "new prompt" ∧
    ((store8.pending "t8").map PendingTask.prompt) = some "old prompt" := by decide

/-- C8 (amended): task creation never fails on a present id; for every store
and id it unconditionally overwrites the pending record with a fresh one
(status `waiting_for_response` on send success, `error` on failure), leaves
the completed partition untouched, and returns the send outcome. -/
theorem c8_create_overwrites (ok : Bool) (prompt task_id : String) (now : Nat) (s : Store) :
    (send_imagine_command ok prompt task_id now s).1.pending task_id
      = some { prompt := prompt,
               status := if ok then "waiting_for_response" else "error",
               created_at := now, command_message_id := none,
               response_message_id := none, image_urls := [] } ∧
    (send_imagine_command ok prompt task_id now s).1.completed = s.completed ∧
    (send_imagine_command ok prompt task_id now s).2 = ok :=
  send_imagine_spec ok prompt task_id now s

/-- C9: the status route, viewed as a state transformer, returns the store
unchanged (reads have no side effects, so repeated reads with no intervening
state change return identical responses), and it answers 404 `not_found`
exactly when the id is in neither partition. -/
theorem c9_status_read_only (s : Store) (task_id : String) :
    (check_statusH s task_id).2 = s ∧
    ((check_statusH s task_id).1.http_code = 404 ↔
      (s.completed task_id = none ∧ s.pending task_id = none)) := by
  refine ⟨rfl, ?_⟩
  show (check_status s task_id).http_code = 404 ↔ _
  cases hc : s.completed task_id with
  | some ct => simp [check_status, hc]
  | none =>
    cases hp : s.pending task_id with
    | some pt => simp [check_status, hc, hp]
    | none => simp [check_status, hc, hp]

/-- C10: the status route consults the completed partition first: whenever
the id has a completed record, the response is the completed snapshot
(status `completed`, its `image_urls` and `completed_at`), regardless of any
pending record for the same id. -/
theorem c10_completed_partition_first (s : Store) (task_id : String) (ct : CompletedTask)
    (h : s.completed task_id = some ct) :
    check_status s task_id
      = { http_code := 200, status := "completed", task_id := task_id,
          image_urls := some ct.image_urls,
          discord_message_id := some ct.discord_message_id,
          completed_at := some ct.completed_at, created_at := none, message := none } := by
  unfold check_status
  rw [h]

/-- C10 witness: `storeB` holds `t1` in both partitions and the read returns
the completed snapshot. -/
theorem c10_witness :
    check_status storeB "t1"
      = { http_code := 200, status := "completed", task_id := "t1",
          image_urls := some ["uA"], discord_message_id := some 42,
          completed_at := some 7, created_at := none, message := none } :=
  c10_completed_partition_first storeB "t1"
    { status := "completed", prompt := foxPrompt, image_urls := ["uA"],
      discord_message_id := 42, completed_at := 7 } (by decide)

end Bridge

